import Mathlib

/-!
Verification of the rdmalib core (RDMA connectivity library) against its
natural-language specification.  The C++ sources are shallowly embedded:
machine words are `Nat` (with explicit `% 2^64` where overflow matters),
fatal `Emergency::abort` paths are `Except FatalDiag`, and the NIC / MPI
collaborators are modelled explicitly where a claim needs them.
-/

/-- Diagnostic record produced by `Emergency::abort` (rdma_base.h): the
calling MPI rank and the reason message.  In the source the function prints
the line and throws; the exception is never caught inside the library, so a
fatal path never produces a normal return value.  In the embedding fatal
paths return `Except.error (Emergency.abort rank reason)`. -/
structure FatalDiag where
  rank : Nat
  reason : String
deriving DecidableEq, Repr

/-- Embedding of `Emergency::abort(message)` (rdma_base.h): the diagnostic
carries the calling rank (obtained from `MPI_Comm_rank`) and the message. -/
def Emergency.abort (rank : Nat) (reason : String) : FatalDiag :=
  { rank := rank, reason := reason }

/-- The line printed to stderr by `Emergency::abort`: `[node %d] %s`. -/
def FatalDiag.logLine (d : FatalDiag) : String :=
  "[node " ++ toString d.rank ++ "] " ++ d.reason

/-- A registered memory region (`ibv_mr`): base address, byte length, local
key and remote key.  Addresses are modelled as `Nat`. -/
structure MR where
  addr : Nat
  length : Nat
  lkey : Nat
  rkey : Nat
deriving DecidableEq, Repr

/-- The covering test used by `Context::match_mr_lkey` / `Peer::match_remote_mr_rkey`:
`addr >= m.addr && addr + size <= m.addr + m.length`. -/
def mrCovers (m : MR) (addr size : Nat) : Bool :=
  decide (m.addr ≤ addr) && decide (addr + size ≤ m.addr + m.length)

/-- The fallthrough `switch (nmrs)` of `Context::match_mr_lkey` (context.h):
`case k+1` tests `mrs[k]` and falls through to `case k`; `case 0` is the
`default:` branch, i.e. `Emergency::abort` (modelled as `none`).  The scan
therefore runs from the highest registered index down to index 0. -/
def matchDown (key : MR → Nat) (mrs : List MR) (addr size : Nat) : Nat → Option Nat
  | 0 => none
  | k + 1 =>
    match mrs[k]? with
    | some m => if mrCovers m addr size then some (key m) else matchDown key mrs addr size k
    | none => none

/-- `Context::match_mr_lkey(addr, size)` (context.h lines 90-120): switch on
`nmrs` with cases `4, 3, 2, 1` testing `mrs[3] … mrs[0]`; a table size outside
`1..4` goes to `default:`, a fatal fault (`none`). -/
def match_mr_lkey (mrs : List MR) (addr size : Nat) : Option Nat :=
  if mrs.length ≤ 4 then matchDown (fun m => m.lkey) mrs addr size mrs.length else none

/-- `Peer::match_remote_mr_rkey(addr, size)` (peer.h lines 112-146): the same
algorithm over `remote_mrs`, returning the remote key. -/
def match_remote_mr_rkey (mrs : List MR) (addr size : Nat) : Option Nat :=
  if mrs.length ≤ 4 then matchDown (fun m => m.rkey) mrs addr size mrs.length else none

/-- Fatal-path wrapper of `Context::match_mr_lkey`: no covering MR calls
`Emergency::abort("cannot match local mr")`. -/
def match_mr_lkeyE (rank : Nat) (mrs : List MR) (addr size : Nat) : Except FatalDiag Nat :=
  match match_mr_lkey mrs addr size with
  | some k => Except.ok k
  | none => Except.error (Emergency.abort rank "cannot match local mr")

/-- Fatal-path wrapper of `Peer::match_remote_mr_rkey`: no covering MR calls
`Emergency::abort("cannot match remote mr")`. -/
def match_remote_mr_rkeyE (rank : Nat) (mrs : List MR) (addr size : Nat) : Except FatalDiag Nat :=
  match match_remote_mr_rkey mrs addr size with
  | some k => Except.ok k
  | none => Except.error (Emergency.abort rank "cannot match remote mr")

/-- Index test used to describe the scan: does `mrs[i]` cover the range. -/
def coverAt (mrs : List MR) (addr size i : Nat) : Bool :=
  match mrs[i]? with
  | some m => mrCovers m addr size
  | none => false

/-- The highest-indexed (most recently registered) covering MR, as an index:
the first hit when scanning the indices `mrs.length - 1, …, 0`. -/
def highestCoverIdx (mrs : List MR) (addr size : Nat) : Option Nat :=
  (List.range mrs.length).reverse.find? (coverAt mrs addr size)

/-- Key of the highest-indexed covering MR, the scan result the source
actually computes. -/
def highestCoverKey (key : MR → Nat) (mrs : List MR) (addr size : Nat) : Option Nat :=
  (highestCoverIdx mrs addr size).bind (fun i => (mrs[i]?).map key)

theorem matchDown_eq_findRev (key : MR → Nat) (mrs : List MR) (addr size : Nat) :
    ∀ k, k ≤ mrs.length →
      matchDown key mrs addr size k =
        ((List.range k).reverse.find? (coverAt mrs addr size)).bind
          (fun i => (mrs[i]?).map key) := by
  intro k
  induction k with
  | zero => intro _; simp [matchDown]
  | succ k ih =>
    intro hk
    have hklt : k < mrs.length := Nat.lt_of_succ_le hk
    have hsome : ∃ m, mrs[k]? = some m := by
      have := List.getElem?_eq_getElem hklt
      exact ⟨mrs[k], this⟩
    obtain ⟨m, hm⟩ := hsome
    have hrange : (List.range (k + 1)).reverse = k :: (List.range k).reverse := by
      rw [List.range_succ, List.reverse_append]
      simp
    rw [hrange]
    by_cases hcov : mrCovers m addr size
    · have hca : coverAt mrs addr size k = true := by
        simp [coverAt, hm, hcov]
      simp [matchDown, hm, hcov, List.find?, hca]
    · rw [Bool.not_eq_true] at hcov
      have hca : coverAt mrs addr size k = false := by
        simp [coverAt, hm, hcov]
      have hrec := ih (Nat.le_of_lt hklt)
      simp [matchDown, hm, hcov, List.find?, hca]
      exact hrec

theorem match_mr_keys_eq_highest (mrs : List MR) (addr size : Nat) (h4 : mrs.length ≤ 4) :
    match_mr_lkey mrs addr size = highestCoverKey (fun m => m.lkey) mrs addr size
  ∧ match_remote_mr_rkey mrs addr size = highestCoverKey (fun m => m.rkey) mrs addr size := by
  constructor
  · rw [match_mr_lkey, if_pos h4, highestCoverKey, highestCoverIdx,
      matchDown_eq_findRev (fun m => m.lkey) mrs addr size mrs.length (Nat.le_refl _)]
  · rw [match_remote_mr_rkey, if_pos h4, highestCoverKey, highestCoverIdx,
      matchDown_eq_findRev (fun m => m.rkey) mrs addr size mrs.length (Nat.le_refl _)]

theorem highestCoverKey_none_iff (key : MR → Nat) (mrs : List MR) (addr size : Nat) :
    highestCoverKey key mrs addr size = none ↔
      ∀ i (hi : i < mrs.length), mrCovers (mrs.get ⟨i, hi⟩) addr size = false := by
  rw [highestCoverKey, highestCoverIdx]
  constructor
  · intro h i hi
    cases hfind : (List.range mrs.length).reverse.find? (coverAt mrs addr size) with
    | none =>
      rw [List.find?_eq_none] at hfind
      have hmem : i ∈ (List.range mrs.length).reverse := by
        rw [List.mem_reverse, List.mem_range]; exact hi
      have := hfind i hmem
      rw [Bool.not_eq_true] at this
      have hget : mrs[i]? = some (mrs.get ⟨i, hi⟩) := by
        rw [List.getElem?_eq_getElem hi]; rfl
      rw [coverAt, hget] at this
      exact this
    | some j =>
      have hjmem := List.mem_of_find?_eq_some hfind
      rw [List.mem_reverse, List.mem_range] at hjmem
      have hjcov := List.find?_some hfind
      have hjget : ∃ m, mrs[j]? = some m := ⟨mrs[j], List.getElem?_eq_getElem hjmem⟩
      obtain ⟨m, hm⟩ := hjget
      rw [hfind] at h
      simp [hm] at h
  · intro h
    have : (List.range mrs.length).reverse.find? (coverAt mrs addr size) = none := by
      rw [List.find?_eq_none]
      intro i hmem
      rw [List.mem_reverse, List.mem_range] at hmem
      have hget : mrs[i]? = some (mrs.get ⟨i, hmem⟩) := by
        rw [List.getElem?_eq_getElem hmem]; rfl
      rw [Bool.not_eq_true, coverAt, hget]
      exact h i hmem
    rw [this]
    rfl

/-- C2 counterexample: two registered MRs both cover the queried range
`[0, 8)`.  The claim says the lowest-indexed (earliest-registered) MR wins,
i.e. the result should be its key `1`; the fallthrough switch in
`Context::match_mr_lkey` scans from the highest index down, so the code
returns the key `2` of the later-registered MR. -/
theorem C2_lowest_index_counterexample :
    match_mr_lkey [⟨0, 100, 1, 11⟩, ⟨0, 100, 2, 12⟩] 0 8 = some 2
  ∧ mrCovers ⟨0, 100, 1, 11⟩ 0 8 = true
  ∧ (⟨0, 100, 1, 11⟩ : MR).lkey = 1
  ∧ (2 : Nat) ≠ 1 := by decide

/-- C2 (amended): `match_lkey(a, n)` (and likewise `match_remote_rkey`) over a
table of at most `MaxMrs = 4` registered MRs returns the key of the
highest-indexed, i.e. latest-registered, MR whose half-open range covers
`[a, a+n)` — the scan order of the fallthrough switch is from the last
registered MR down to the first; if no registered MR covers the range the
call is a fatal fault (`Emergency::abort`). -/
theorem C2_match_key_scans_from_last (rank : Nat) (mrs : List MR) (addr size : Nat)
    (h4 : mrs.length ≤ 4) :
    match_mr_lkey mrs addr size = highestCoverKey (fun m => m.lkey) mrs addr size
  ∧ match_remote_mr_rkey mrs addr size = highestCoverKey (fun m => m.rkey) mrs addr size
  ∧ ((∀ i (hi : i < mrs.length), mrCovers (mrs.get ⟨i, hi⟩) addr size = false) →
      match_mr_lkeyE rank mrs addr size =
        Except.error (Emergency.abort rank "cannot match local mr")
    ∧ match_remote_mr_rkeyE rank mrs addr size =
        Except.error (Emergency.abort rank "cannot match remote mr")) := by
  obtain ⟨hl, hr⟩ := match_mr_keys_eq_highest mrs addr size h4
  refine ⟨hl, hr, ?_⟩
  intro hnone
  have hln : match_mr_lkey mrs addr size = none := by
    rw [hl, highestCoverKey_none_iff]; exact hnone
  have hrn : match_remote_mr_rkey mrs addr size = none := by
    rw [hr, highestCoverKey_none_iff]; exact hnone
  constructor
  · rw [match_mr_lkeyE, hln]
  · rw [match_remote_mr_rkeyE, hrn]

/-- Witness for `C2_match_key_scans_from_last` at a concrete two-MR table. -/
theorem C2_match_key_scans_from_last_witness :
    ([(⟨0, 100, 1, 11⟩ : MR), ⟨0, 100, 2, 12⟩].length ≤ 4)
  ∧ (match_mr_lkey [⟨0, 100, 1, 11⟩, ⟨0, 100, 2, 12⟩] 0 8 =
      highestCoverKey (fun m => m.lkey) [⟨0, 100, 1, 11⟩, ⟨0, 100, 2, 12⟩] 0 8) :=
  ⟨by decide, (C2_match_key_scans_from_last 0 [⟨0, 100, 1, 11⟩, ⟨0, 100, 2, 12⟩] 0 8 (by decide)).1⟩

/-- Outcome of the time-limited polling loop in
`rptr::field_fetch_add_timelimit` (rptr.h): `timedOut` is the
`*success = false; return real_object_type{};` exit, `completed` is the
`break` taken when `poll_send_cq_once` reports a completion (after which
`*success = true` and the fetched value is returned). -/
inductive TLOutcome where
  | timedOut
  | completed
deriving DecidableEq, Repr

/-- The busy-poll loop of `rptr::field_fetch_add_timelimit` (both the
`highest_bit`/`lowest_bit` overload, rptr.h lines 245-255, and the
`boundary_mask` overload, lines 307-317 — the loops are verbatim
identical).  Each iteration is an observation `(elapsed, polled)`:
`elapsed` is the monotonic-clock reading
`duration_cast<microseconds>(now - start).count()` at the top of the
iteration, and `polled` is what `poll_send_cq_once` would return.  The
source checks `elapsed < time_limit_us` and, when that holds, exits with
the timed-out result; only otherwise does it poll.  `none` means the trace
ended with the loop still spinning. -/
def timelimit_loop (time_limit_us : Nat) : List (Nat × Nat) → Option TLOutcome
  | [] => none
  | (elapsed, polled) :: rest =>
    if elapsed < time_limit_us then some TLOutcome.timedOut
    else if polled ≠ 0 then some TLOutcome.completed
    else timelimit_loop time_limit_us rest

/-- Modelled from the spec: the intended loop of
`field_fetch_add_timelimit` per §4.6/§9 — abort with `success_out = false`
only when the elapsed wall-clock time has exceeded the budget, otherwise
keep polling and exit with success as soon as a completion is observed. -/
def timelimit_loop_intent (time_limit_us : Nat) : List (Nat × Nat) → Option TLOutcome
  | [] => none
  | (elapsed, polled) :: rest =>
    if elapsed > time_limit_us then some TLOutcome.timedOut
    else if polled ≠ 0 then some TLOutcome.completed
    else timelimit_loop_intent time_limit_us rest

/-- `rptr::field_fetch_add_timelimit(time_limit_us, success, add, hi, lo, sync=true)`
with `sizeof(T) == 8`: posts the field FAA, runs the polling loop, and
returns `(*success, value)` — on `completed` the fetched previous value
`fetched` (the NIC writes it to the local buffer before the completion),
on `timedOut` a zero-initialized value with `*success = false`. -/
def field_fetch_add_timelimit (time_limit_us : Nat) (trace : List (Nat × Nat))
    (fetched : Nat) : Option (Bool × Nat) :=
  (timelimit_loop time_limit_us trace).map
    (fun o => match o with
      | TLOutcome.timedOut => (false, 0)
      | TLOutcome.completed => (true, fetched))

/-- The same wrapper under the spec-intended loop direction. -/
def field_fetch_add_timelimit_intent (time_limit_us : Nat) (trace : List (Nat × Nat))
    (fetched : Nat) : Option (Bool × Nat) :=
  (timelimit_loop_intent time_limit_us trace).map
    (fun o => match o with
      | TLOutcome.timedOut => (false, 0)
      | TLOutcome.completed => (true, fetched))

/-- C1: code bug.  With `time_limit_us = 1000` and a completion already
available at the very first poll iteration (elapsed 0 µs, `poll_send_cq_once`
would return 1), the loop in the source takes the `elapsed < time_limit_us`
branch immediately, sets `*success = false` and returns a zero value
without ever calling `poll_send_cq_once`; the claim (and the doc comment of the code itself: "If exceeded, return early") requires `*success = true` with
the fetched previous value (here 42).  The comparison direction in the
loop is inverted. -/
theorem C1_timelimit_check_inverted :
    field_fetch_add_timelimit 1000 [(0, 1)] 42 = some (false, 0)
  ∧ field_fetch_add_timelimit_intent 1000 [(0, 1)] 42 = some (true, 42)
  ∧ timelimit_loop 1000 [(0, 1)] = some TLOutcome.timedOut
  ∧ timelimit_loop_intent 1000 [(0, 1)] = some TLOutcome.completed := by
  decide

/-- State of the `Cluster` singleton relevant to `establish`:
the cluster size `n`, the atomic `connected` flag, and the per-peer
connection counts recorded by a successful bring-up. -/
structure ClusterState where
  n : Nat
  connected : Bool
  conns : Option (Nat × Nat)
deriving DecidableEq, Repr

/-- Observable side effects of `Cluster::establish`: the two
`MPI_Barrier` calls and the per-peer `Peer::establish` calls. -/
inductive CEvent where
  | barrier
  | peerEstablish (peerId : Nat)
deriving DecidableEq, Repr

/-- `Cluster::establish(num_rc, num_xrc)` (cluster.cpp lines 49-73).
The argument-validity check runs BEFORE the CAS on `connected`:
invalid counts are fatal (`Emergency::abort("no connections to establush")`)
even when the cluster is already connected.  If the CAS fails (already
connected) the call returns silently with no events; otherwise it
barriers, establishes every non-self peer in rank order, and barriers
again. -/
def cluster_establish (rank : Nat) (st : ClusterState) (num_rc num_xrc : Int) :
    Except FatalDiag (ClusterState × List CEvent) :=
  if num_rc < 0 ∨ num_xrc < 0 ∨ (num_rc = 0 ∧ num_xrc = 0) then
    Except.error (Emergency.abort rank "no connections to establush")
  else if st.connected then
    Except.ok (st, [])
  else
    Except.ok ({ st with connected := true, conns := some (num_rc.toNat, num_xrc.toNat) },
      CEvent.barrier ::
        ((List.range st.n).filterMap
          (fun i => if i = rank then none else some (CEvent.peerEstablish i))
        ++ [CEvent.barrier]))

/-- C3 counterexample: after a first successful `establish(1, 0)` (the state
has `connected = true`), a second call with connection counts `(0, 0)` is
NOT a silent no-op: the validity check precedes the CAS on `connected`, so
the call aborts fatally. -/
theorem C3_repeat_establish_counterexample :
    cluster_establish 0 { n := 2, connected := false, conns := none } 1 0 =
      Except.ok ({ n := 2, connected := true, conns := some (1, 0) },
        [CEvent.barrier, CEvent.peerEstablish 1, CEvent.barrier])
  ∧ cluster_establish 0 { n := 2, connected := true, conns := some (1, 0) } 0 0 =
      Except.error (Emergency.abort 0 "no connections to establush") :=
  ⟨rfl, rfl⟩

/-- C3 (amended): after a first successful `Cluster.establish`, every
subsequent call whose arguments pass the validity check (`num_rc ≥ 0`,
`num_xrc ≥ 0`, not both zero) returns silently as a no-op — same state, no
barriers, no peer establishment — because the compare-and-swap on the
atomic `connected` flag fails; a subsequent call with invalid connection
counts (negative, or both zero) is still a fatal configuration fault, since
the validity check runs before the CAS. -/
theorem C3_establish_once_only (rank : Nat) (st : ClusterState) (num_rc num_xrc : Int)
    (hconn : st.connected = true)
    (hvalid : ¬(num_rc < 0 ∨ num_xrc < 0 ∨ (num_rc = 0 ∧ num_xrc = 0))) :
    cluster_establish rank st num_rc num_xrc = Except.ok (st, []) := by
  rw [cluster_establish, if_neg hvalid, if_pos hconn]

/-- Witness for `C3_establish_once_only`: a second `establish(8, 0)` after a
successful `establish` is a silent no-op. -/
theorem C3_establish_once_only_witness :
    cluster_establish 0 { n := 2, connected := true, conns := some (1, 0) } 8 0 =
      Except.ok ({ n := 2, connected := true, conns := some (1, 0) }, []) :=
  C3_establish_once_only 0 { n := 2, connected := true, conns := some (1, 0) } 8 0
    (by decide) (by decide)

/-- A scatter-gather entry (`ibv_sge`): local address, byte length, local key. -/
structure SGE where
  addr : Nat
  length : Nat
  lkey : Nat
deriving DecidableEq, Repr

/-- Work-request opcodes used by the embedded post operations
(`IBV_WR_RDMA_READ`, `IBV_WR_RDMA_WRITE`, `IBV_WR_SEND`,
`IBV_WR_ATOMIC_CMP_AND_SWP`, `IBV_WR_ATOMIC_FETCH_AND_ADD`,
`IBV_EXP_WR_EXT_MASKED_ATOMIC_CMP_AND_SWP`,
`IBV_EXP_WR_EXT_MASKED_ATOMIC_FETCH_AND_ADD`). -/
inductive Opcode where
  | read
  | write
  | send
  | cas
  | faa
  | maskedCas
  | maskedFaa
deriving DecidableEq, Repr

/-- A posted work request (`ibv_send_wr` / `ibv_exp_send_wr`).  The source
zeroes the struct with `memset` and then assigns the fields it needs, so
every field here defaults to its zero value.  `next` is the index of the
next linked WR inside a batch (`none` models the null pointer). -/
structure SendWR where
  wr_id : Nat := 0
  next : Option Nat := none
  sge : SGE := ⟨0, 0, 0⟩
  opcode : Opcode := Opcode.send
  signaled : Bool := false
  remote_addr : Nat := 0
  rkey : Nat := 0
  compare_add : Nat := 0
  swap : Nat := 0
  compare_mask : Nat := 0
  swap_mask : Nat := 0
  add_val : Nat := 0
  field_boundary : Nat := 0
  xrc_remote_srq_num : Nat := 0
deriving DecidableEq, Repr

/-- `ReliableConnection::post_atomic_cas(dst, compare, swap, signaled, wr_id)`
(rc.cpp lines 577-602).  `compare_ptr` is the `compare` pointer (the SGE
target) and `compare_val` the 8 bytes currently stored there
(`*(uint64_t *)compare`, loaded into `wr.wr.atomic.compare_add`).
Misaligned `dst` aborts before anything is built or posted. -/
def rc_post_atomic_cas (rank : Nat) (lmrs rmrs : List MR) (dst compare_ptr compare_val swap : Nat)
    (signaled : Bool) (wr_id : Nat) : Except FatalDiag SendWR :=
  if dst % 8 ≠ 0 then
    Except.error (Emergency.abort rank "post atomic CAS to non-aligned address")
  else
    match match_mr_lkey lmrs compare_ptr 8 with
    | none => Except.error (Emergency.abort rank "cannot match local mr")
    | some lk =>
      match match_remote_mr_rkey rmrs dst 8 with
      | none => Except.error (Emergency.abort rank "cannot match remote mr")
      | some rk =>
        Except.ok
          { wr_id := wr_id, sge := ⟨compare_ptr, 8, lk⟩, opcode := Opcode.cas,
            signaled := signaled, remote_addr := dst, rkey := rk,
            compare_add := compare_val, swap := swap }

/-- `ReliableConnection::post_atomic_faa(dst, fetch, add, signaled, wr_id)`
(rc.cpp lines 604-628). -/
def rc_post_atomic_faa (rank : Nat) (lmrs rmrs : List MR) (dst fetch_ptr add : Nat)
    (signaled : Bool) (wr_id : Nat) : Except FatalDiag SendWR :=
  if dst % 8 ≠ 0 then
    Except.error (Emergency.abort rank "post atomic FA to non-aligned address")
  else
    match match_mr_lkey lmrs fetch_ptr 8 with
    | none => Except.error (Emergency.abort rank "cannot match local mr")
    | some lk =>
      match match_remote_mr_rkey rmrs dst 8 with
      | none => Except.error (Emergency.abort rank "cannot match remote mr")
      | some rk =>
        Except.ok
          { wr_id := wr_id, sge := ⟨fetch_ptr, 8, lk⟩, opcode := Opcode.faa,
            signaled := signaled, remote_addr := dst, rkey := rk, compare_add := add }

/-- `ReliableConnection::post_masked_atomic_cas(dst, compare, compare_mask,
swap, swap_mask, signaled, wr_id)` (rc.cpp lines 630-663). -/
def rc_post_masked_atomic_cas (rank : Nat) (lmrs rmrs : List MR)
    (dst compare_ptr compare_val compare_mask swap swap_mask : Nat)
    (signaled : Bool) (wr_id : Nat) : Except FatalDiag SendWR :=
  if dst % 8 ≠ 0 then
    Except.error (Emergency.abort rank "post masked atomic FA to non-aligned address")
  else
    match match_mr_lkey lmrs compare_ptr 8 with
    | none => Except.error (Emergency.abort rank "cannot match local mr")
    | some lk =>
      match match_remote_mr_rkey rmrs dst 8 with
      | none => Except.error (Emergency.abort rank "cannot match remote mr")
      | some rk =>
        Except.ok
          { wr_id := wr_id, sge := ⟨compare_ptr, 8, lk⟩, opcode := Opcode.maskedCas,
            signaled := signaled, remote_addr := dst, rkey := rk,
            compare_add := compare_val, compare_mask := compare_mask,
            swap := swap, swap_mask := swap_mask }

/-- `ReliableConnection::post_field_atomic_faa(dst, fetch, add, highest_bit,
lowest_bit, signaled, wr_id)` (rc.cpp lines 665-695): `add_val` is
`add << lowest_bit` and `field_boundary` is `1ull << highest_bit`, both as
64-bit words. -/
def rc_post_field_atomic_faa (rank : Nat) (lmrs rmrs : List MR)
    (dst fetch_ptr add highest_bit lowest_bit : Nat)
    (signaled : Bool) (wr_id : Nat) : Except FatalDiag SendWR :=
  if dst % 8 ≠ 0 then
    Except.error (Emergency.abort rank "post masked atomic FA to non-aligned address")
  else
    match match_mr_lkey lmrs fetch_ptr 8 with
    | none => Except.error (Emergency.abort rank "cannot match local mr")
    | some lk =>
      match match_remote_mr_rkey rmrs dst 8 with
      | none => Except.error (Emergency.abort rank "cannot match remote mr")
      | some rk =>
        Except.ok
          { wr_id := wr_id, sge := ⟨fetch_ptr, 8, lk⟩, opcode := Opcode.maskedFaa,
            signaled := signaled, remote_addr := dst, rkey := rk,
            add_val := (add <<< lowest_bit) % 2 ^ 64,
            field_boundary := (1 <<< highest_bit) % 2 ^ 64 }

/-- `ReliableConnection::post_masked_atomic_faa(dst, fetch, add, boundary,
signaled, wr_id)` (rc.cpp lines 697-726). -/
def rc_post_masked_atomic_faa (rank : Nat) (lmrs rmrs : List MR)
    (dst fetch_ptr add boundary : Nat)
    (signaled : Bool) (wr_id : Nat) : Except FatalDiag SendWR :=
  if dst % 8 ≠ 0 then
    Except.error (Emergency.abort rank "post masked atomic FA to non-aligned address")
  else
    match match_mr_lkey lmrs fetch_ptr 8 with
    | none => Except.error (Emergency.abort rank "cannot match local mr")
    | some lk =>
      match match_remote_mr_rkey rmrs dst 8 with
      | none => Except.error (Emergency.abort rank "cannot match remote mr")
      | some rk =>
        Except.ok
          { wr_id := wr_id, sge := ⟨fetch_ptr, 8, lk⟩, opcode := Opcode.maskedFaa,
            signaled := signaled, remote_addr := dst, rkey := rk,
            add_val := add, field_boundary := boundary }

/-- `ExtendedReliableConnection::post_read(dst, src, size, signaled, wr_id)`
(xrc.cpp lines 41-63): a one-sided READ on the initiator QP; the WR must
carry `xrc_remote_srq_num = peer.xrc_srq_nums[this.id]`.  `srq` models the
array `xrc_srq_nums` of the peer and `cid` the slot id of the connection. -/
def xrc_post_read (rank : Nat) (lmrs rmrs : List MR) (srq : Nat → Nat) (cid : Nat)
    (dst src size : Nat) (signaled : Bool) (wr_id : Nat) : Except FatalDiag SendWR :=
  match match_mr_lkey lmrs dst size with
  | none => Except.error (Emergency.abort rank "cannot match local mr")
  | some lk =>
    match match_remote_mr_rkey rmrs src size with
    | none => Except.error (Emergency.abort rank "cannot match remote mr")
    | some rk =>
      Except.ok
        { wr_id := wr_id, sge := ⟨dst, size, lk⟩, opcode := Opcode.read,
          signaled := signaled, remote_addr := src, rkey := rk,
          xrc_remote_srq_num := srq cid }

/-- `ExtendedReliableConnection::post_write(dst, src, size, signaled, wr_id)`
(xrc.cpp lines 65-87). -/
def xrc_post_write (rank : Nat) (lmrs rmrs : List MR) (srq : Nat → Nat) (cid : Nat)
    (dst src size : Nat) (signaled : Bool) (wr_id : Nat) : Except FatalDiag SendWR :=
  match match_mr_lkey lmrs src size with
  | none => Except.error (Emergency.abort rank "cannot match local mr")
  | some lk =>
    match match_remote_mr_rkey rmrs dst size with
    | none => Except.error (Emergency.abort rank "cannot match remote mr")
    | some rk =>
      Except.ok
        { wr_id := wr_id, sge := ⟨src, size, lk⟩, opcode := Opcode.write,
          signaled := signaled, remote_addr := dst, rkey := rk,
          xrc_remote_srq_num := srq cid }

/-- `ExtendedReliableConnection::post_send(src, size, remote_id, signaled, wr_id)`
(xrc.cpp lines 89-109): a two-sided SEND addressed to the SRQ of the
remote thread picked by `remote_id` — `xrc_remote_srq_num = peer.xrc_srq_nums[remote_id]`. -/
def xrc_post_send (rank : Nat) (lmrs : List MR) (srq : Nat → Nat)
    (src size remote_id : Nat) (signaled : Bool) (wr_id : Nat) : Except FatalDiag SendWR :=
  match match_mr_lkey lmrs src size with
  | none => Except.error (Emergency.abort rank "cannot match local mr")
  | some lk =>
    Except.ok
      { wr_id := wr_id, sge := ⟨src, size, lk⟩, opcode := Opcode.send,
        signaled := signaled, xrc_remote_srq_num := srq remote_id }

/-- `ExtendedReliableConnection::post_atomic_cas(dst, compare, swap, signaled, wr_id)`
(xrc.cpp lines 128-155). -/
def xrc_post_atomic_cas (rank : Nat) (lmrs rmrs : List MR) (srq : Nat → Nat) (cid : Nat)
    (dst compare_ptr compare_val swap : Nat) (signaled : Bool) (wr_id : Nat) :
    Except FatalDiag SendWR :=
  if dst % 8 ≠ 0 then
    Except.error (Emergency.abort rank "post atomic CAS to non-aligned address")
  else
    match match_mr_lkey lmrs compare_ptr 8 with
    | none => Except.error (Emergency.abort rank "cannot match local mr")
    | some lk =>
      match match_remote_mr_rkey rmrs dst 8 with
      | none => Except.error (Emergency.abort rank "cannot match remote mr")
      | some rk =>
        Except.ok
          { wr_id := wr_id, sge := ⟨compare_ptr, 8, lk⟩, opcode := Opcode.cas,
            signaled := signaled, remote_addr := dst, rkey := rk,
            compare_add := compare_val, swap := swap,
            xrc_remote_srq_num := srq cid }

/-- `ExtendedReliableConnection::post_atomic_fa(dst, fetch, add, signaled, wr_id)`
(xrc.cpp lines 157-183). -/
def xrc_post_atomic_fa (rank : Nat) (lmrs rmrs : List MR) (srq : Nat → Nat) (cid : Nat)
    (dst fetch_ptr add : Nat) (signaled : Bool) (wr_id : Nat) : Except FatalDiag SendWR :=
  if dst % 8 ≠ 0 then
    Except.error (Emergency.abort rank "post atomic FA to non-aligned address")
  else
    match match_mr_lkey lmrs fetch_ptr 8 with
    | none => Except.error (Emergency.abort rank "cannot match local mr")
    | some lk =>
      match match_remote_mr_rkey rmrs dst 8 with
      | none => Except.error (Emergency.abort rank "cannot match remote mr")
      | some rk =>
        Except.ok
          { wr_id := wr_id, sge := ⟨fetch_ptr, 8, lk⟩, opcode := Opcode.faa,
            signaled := signaled, remote_addr := dst, rkey := rk,
            compare_add := add, xrc_remote_srq_num := srq cid }

/-- `ExtendedReliableConnection::post_masked_atomic_cas(...)` (xrc.cpp lines 185-219). -/
def xrc_post_masked_atomic_cas (rank : Nat) (lmrs rmrs : List MR) (srq : Nat → Nat) (cid : Nat)
    (dst compare_ptr compare_val compare_mask swap swap_mask : Nat)
    (signaled : Bool) (wr_id : Nat) : Except FatalDiag SendWR :=
  if dst % 8 ≠ 0 then
    Except.error (Emergency.abort rank "post masked atomic FA to non-aligned address")
  else
    match match_mr_lkey lmrs compare_ptr 8 with
    | none => Except.error (Emergency.abort rank "cannot match local mr")
    | some lk =>
      match match_remote_mr_rkey rmrs dst 8 with
      | none => Except.error (Emergency.abort rank "cannot match remote mr")
      | some rk =>
        Except.ok
          { wr_id := wr_id, sge := ⟨compare_ptr, 8, lk⟩, opcode := Opcode.maskedCas,
            signaled := signaled, remote_addr := dst, rkey := rk,
            compare_add := compare_val, compare_mask := compare_mask,
            swap := swap, swap_mask := swap_mask,
            xrc_remote_srq_num := srq cid }

/-- `ExtendedReliableConnection::post_masked_atomic_fa(dst, fetch, add,
highest_bit, lowest_bit, signaled, wr_id)` (xrc.cpp lines 221-252). -/
def xrc_post_masked_atomic_fa (rank : Nat) (lmrs rmrs : List MR) (srq : Nat → Nat) (cid : Nat)
    (dst fetch_ptr add highest_bit lowest_bit : Nat)
    (signaled : Bool) (wr_id : Nat) : Except FatalDiag SendWR :=
  if dst % 8 ≠ 0 then
    Except.error (Emergency.abort rank "post masked atomic FA to non-aligned address")
  else
    match match_mr_lkey lmrs fetch_ptr 8 with
    | none => Except.error (Emergency.abort rank "cannot match local mr")
    | some lk =>
      match match_remote_mr_rkey rmrs dst 8 with
      | none => Except.error (Emergency.abort rank "cannot match remote mr")
      | some rk =>
        Except.ok
          { wr_id := wr_id, sge := ⟨fetch_ptr, 8, lk⟩, opcode := Opcode.maskedFaa,
            signaled := signaled, remote_addr := dst, rkey := rk,
            add_val := (add <<< lowest_bit) % 2 ^ 64,
            field_boundary := (1 <<< highest_bit) % 2 ^ 64,
            xrc_remote_srq_num := srq cid }

/-- Traverse indices with a fallible builder, collecting the results; the
first `Emergency::abort` escapes the whole post call (nothing is handed to
`ibv_post_send`). -/
def exTraverse {α : Type} (f : Nat → Except FatalDiag α) : List Nat → Except FatalDiag (List α)
  | [] => Except.ok []
  | i :: rest =>
    match f i with
    | Except.error d => Except.error d
    | Except.ok w =>
      match exTraverse f rest with
      | Except.error d => Except.error d
      | Except.ok ws => Except.ok (w :: ws)

theorem exTraverse_ok_length {α : Type} (f : Nat → Except FatalDiag α) :
    ∀ (xs : List Nat) (l : List α), exTraverse f xs = Except.ok l → l.length = xs.length := by
  intro xs
  induction xs with
  | nil =>
    intro l h
    rw [exTraverse] at h
    cases h
    rfl
  | cons i rest ih =>
    intro l h
    rw [exTraverse] at h
    cases hf : f i with
    | error d => rw [hf] at h; cases h
    | ok w =>
      rw [hf] at h
      cases hrest : exTraverse f rest with
      | error d => rw [hrest] at h; cases h
      | ok ws =>
        rw [hrest] at h
        cases h
        simp [ih ws hrest]

theorem exTraverse_ok_get {α : Type} (f : Nat → Except FatalDiag α) :
    ∀ (xs : List Nat) (l : List α), exTraverse f xs = Except.ok l →
      ∀ (k : Nat) (hx : k < xs.length) (hl : k < l.length),
        f (xs.get ⟨k, hx⟩) = Except.ok (l.get ⟨k, hl⟩) := by
  intro xs
  induction xs with
  | nil =>
    intro l h k hx
    exact absurd hx (Nat.not_lt_zero k)
  | cons i rest ih =>
    intro l h k hx hl
    rw [exTraverse] at h
    cases hf : f i with
    | error d => rw [hf] at h; cases h
    | ok w =>
      rw [hf] at h
      cases hrest : exTraverse f rest with
      | error d => rw [hrest] at h; cases h
      | ok ws =>
        rw [hrest] at h
        cases h
        cases k with
        | zero => exact hf
        | succ k =>
          exact ih ws hrest k (Nat.lt_of_succ_lt_succ hx) (Nat.lt_of_succ_lt_succ hl)

theorem exTraverse_error_src {α : Type} (f : Nat → Except FatalDiag α) :
    ∀ (xs : List Nat) (d : FatalDiag), exTraverse f xs = Except.error d →
      ∃ i, i ∈ xs ∧ f i = Except.error d := by
  intro xs
  induction xs with
  | nil =>
    intro d h
    rw [exTraverse] at h
    cases h
  | cons i rest ih =>
    intro d h
    rw [exTraverse] at h
    cases hf : f i with
    | error e =>
      rw [hf] at h
      cases h
      exact ⟨i, List.mem_cons_self i rest, hf⟩
    | ok w =>
      rw [hf] at h
      cases hrest : exTraverse f rest with
      | error e =>
        rw [hrest] at h
        cases h
        obtain ⟨j, hjmem, hje⟩ := ih d hrest
        exact ⟨j, List.mem_cons_of_mem i hjmem, hje⟩
      | ok ws => rw [hrest] at h; cases h

/-- The SGE-building loop of `ReliableConnection::post_batch_read`
(rc.cpp lines 556-560): `sge[i] = (dst_arr[i], size_arr[i], lkey)`. -/
def batch_read_sge (rank : Nat) (lmrs : List MR) (dst size : Nat → Nat) (i : Nat) :
    Except FatalDiag SGE :=
  match match_mr_lkey lmrs (dst i) (size i) with
  | none => Except.error (Emergency.abort rank "cannot match local mr")
  | some lk => Except.ok ⟨dst i, size i, lk⟩

/-- The WR-building loop of `ReliableConnection::post_batch_read`
(rc.cpp lines 562-573): `wr[i].next = (i == count-1 ? nullptr : wr+(i+1))`,
`wr[i].wr_id = wr_id_start + i`, and only the last WR gets
`IBV_SEND_SIGNALED`. -/
def batch_read_wr (rank : Nat) (rmrs : List MR) (src size : Nat → Nat)
    (count wr_id_start : Nat) (sges : List SGE) (i : Nat) : Except FatalDiag SendWR :=
  match match_remote_mr_rkey rmrs (src i) (size i) with
  | none => Except.error (Emergency.abort rank "cannot match remote mr")
  | some rk =>
    Except.ok
      { wr_id := wr_id_start + i,
        next := if i = count - 1 then none else some (i + 1),
        sge := sges.getD i ⟨0, 0, 0⟩, opcode := Opcode.read,
        signaled := decide (i = count - 1),
        remote_addr := src i, rkey := rk }

/-- `ReliableConnection::post_batch_read(dst_arr, src_arr, size_arr, count,
wr_id_start)` (rc.cpp lines 551-575): build the SGEs, then the linked WR
chain, then hand the chain to `ibv_post_send` once. -/
def rc_post_batch_read (rank : Nat) (lmrs rmrs : List MR) (dst src size : Nat → Nat)
    (count wr_id_start : Nat) : Except FatalDiag (List SendWR) :=
  match exTraverse (batch_read_sge rank lmrs dst size) (List.range count) with
  | Except.error d => Except.error d
  | Except.ok sges =>
    exTraverse (batch_read_wr rank rmrs src size count wr_id_start sges) (List.range count)

/-- The SGE-building loop of `ReliableConnection::post_batch_masked_atomic_faa`
(rc.cpp lines 734-741): a non-8-aligned local fetch buffer is fatal, then
`sge[i] = (fetch_arr[i], 8, lkey)`. -/
def batch_mfaa_sge (rank : Nat) (lmrs : List MR) (fetch : Nat → Nat) (i : Nat) :
    Except FatalDiag SGE :=
  if fetch i % 8 ≠ 0 then
    Except.error (Emergency.abort rank "post masked atomic FA to local non-aligned address")
  else
    match match_mr_lkey lmrs (fetch i) 8 with
    | none => Except.error (Emergency.abort rank "cannot match local mr")
    | some lk => Except.ok ⟨fetch i, 8, lk⟩

/-- The WR-building loop of `ReliableConnection::post_batch_masked_atomic_faa`
(rc.cpp lines 743-764): a non-8-aligned remote target is fatal; WRs are
linked through `next`, ids are `wr_id_start + i`, only the last is signaled. -/
def batch_mfaa_wr (rank : Nat) (rmrs : List MR) (dst add boundary : Nat → Nat)
    (count wr_id_start : Nat) (sges : List SGE) (i : Nat) : Except FatalDiag SendWR :=
  if dst i % 8 ≠ 0 then
    Except.error (Emergency.abort rank "post masked atomic FA to remote non-aligned address")
  else
    match match_remote_mr_rkey rmrs (dst i) 8 with
    | none => Except.error (Emergency.abort rank "cannot match remote mr")
    | some rk =>
      Except.ok
        { wr_id := wr_id_start + i,
          next := if i = count - 1 then none else some (i + 1),
          sge := sges.getD i ⟨0, 0, 0⟩, opcode := Opcode.maskedFaa,
          signaled := decide (i = count - 1),
          remote_addr := dst i, rkey := rk,
          add_val := add i, field_boundary := boundary i }

/-- `ReliableConnection::post_batch_masked_atomic_faa(dst_arr, fetch_arr,
add_arr, boundary_arr, count, wr_id_start)` (rc.cpp lines 728-766). -/
def rc_post_batch_masked_atomic_faa (rank : Nat) (lmrs rmrs : List MR)
    (dst fetch add boundary : Nat → Nat) (count wr_id_start : Nat) :
    Except FatalDiag (List SendWR) :=
  match exTraverse (batch_mfaa_sge rank lmrs fetch) (List.range count) with
  | Except.error d => Except.error d
  | Except.ok sges =>
    exTraverse (batch_mfaa_wr rank rmrs dst add boundary count wr_id_start sges)
      (List.range count)

theorem batch_read_wr_ok_fields (rank : Nat) (rmrs : List MR) (src size : Nat → Nat)
    (count wr_id_start : Nat) (sges : List SGE) (i : Nat) (w : SendWR)
    (h : batch_read_wr rank rmrs src size count wr_id_start sges i = Except.ok w) :
    w.wr_id = wr_id_start + i
  ∧ w.next = (if i = count - 1 then none else some (i + 1))
  ∧ (w.signaled = true ↔ i = count - 1) := by
  rw [batch_read_wr] at h
  cases hr : match_remote_mr_rkey rmrs (src i) (size i) with
  | none => rw [hr] at h; cases h
  | some rk =>
    rw [hr] at h
    cases h
    refine ⟨rfl, rfl, ?_⟩
    simp

theorem batch_mfaa_wr_ok_fields (rank : Nat) (rmrs : List MR) (dst add boundary : Nat → Nat)
    (count wr_id_start : Nat) (sges : List SGE) (i : Nat) (w : SendWR)
    (h : batch_mfaa_wr rank rmrs dst add boundary count wr_id_start sges i = Except.ok w) :
    w.wr_id = wr_id_start + i
  ∧ w.next = (if i = count - 1 then none else some (i + 1))
  ∧ (w.signaled = true ↔ i = count - 1) := by
  by_cases ha : dst i % 8 ≠ 0
  · rw [batch_mfaa_wr, if_pos ha] at h
    cases h
  · rw [batch_mfaa_wr, if_neg ha] at h
    cases hr : match_remote_mr_rkey rmrs (dst i) 8 with
    | none => rw [hr] at h; cases h
    | some rk =>
      rw [hr] at h
      cases h
      refine ⟨rfl, rfl, ?_⟩
      simp

/-- C8: for every batch post (`post_batch_read`, `post_batch_masked_atomic_faa`)
with `1 ≤ count ≤ MaxPostWR = 32` that is accepted, the i-th work request
(0-based) has `wr_id = wr_id_start + i`, is linked to work request `i + 1`
through `next` with the last one carrying `next = null`, and exactly the
last work request of the batch carries the signaled flag. -/
theorem C8_batch_wr_chain (rank : Nat) (lmrs rmrs : List MR)
    (dst src size fetch add boundary : Nat → Nat) (count wr_id_start : Nat)
    (l l2 : List SendWR)
    (h1 : 1 ≤ count) (h32 : count ≤ 32)
    (hread : rc_post_batch_read rank lmrs rmrs dst src size count wr_id_start = Except.ok l)
    (hfaa : rc_post_batch_masked_atomic_faa rank lmrs rmrs dst fetch add boundary
      count wr_id_start = Except.ok l2) :
    l.length = count ∧ l2.length = count
  ∧ ∀ i (hi : i < l.length) (hi2 : i < l2.length),
      ((l.get ⟨i, hi⟩).wr_id = wr_id_start + i
    ∧ (l.get ⟨i, hi⟩).next = (if i = count - 1 then none else some (i + 1))
    ∧ ((l.get ⟨i, hi⟩).signaled = true ↔ i = count - 1))
    ∧ ((l2.get ⟨i, hi2⟩).wr_id = wr_id_start + i
    ∧ (l2.get ⟨i, hi2⟩).next = (if i = count - 1 then none else some (i + 1))
    ∧ ((l2.get ⟨i, hi2⟩).signaled = true ↔ i = count - 1)) := by
  rw [rc_post_batch_read] at hread
  rw [rc_post_batch_masked_atomic_faa] at hfaa
  cases hsge : exTraverse (batch_read_sge rank lmrs dst size) (List.range count) with
  | error d => rw [hsge] at hread; cases hread
  | ok sges =>
    rw [hsge] at hread
    cases hsge2 : exTraverse (batch_mfaa_sge rank lmrs fetch) (List.range count) with
    | error d => rw [hsge2] at hfaa; cases hfaa
    | ok sges2 =>
      rw [hsge2] at hfaa
      have hlen : l.length = count := by
        rw [exTraverse_ok_length _ _ l hread, List.length_range]
      have hlen2 : l2.length = count := by
        rw [exTraverse_ok_length _ _ l2 hfaa, List.length_range]
      refine ⟨hlen, hlen2, ?_⟩
      intro i hi hi2
      have hx : i < (List.range count).length := by
        rw [List.length_range]
        rw [hlen] at hi
        exact hi
      have hget := exTraverse_ok_get _ _ l hread i hx hi
      have hget2 := exTraverse_ok_get _ _ l2 hfaa i hx hi2
      rw [List.get_range] at hget hget2
      exact ⟨batch_read_wr_ok_fields rank rmrs src size count wr_id_start sges i _ hget,
        batch_mfaa_wr_ok_fields rank rmrs dst add boundary count wr_id_start sges2 i _ hget2⟩

/-- Concrete three-WR batch READ result used by the C8 witness. -/
def demoBatchReadWRs : List SendWR :=
  [{ wr_id := 10, next := some 1, sge := ⟨0, 8, 5⟩, opcode := Opcode.read,
     remote_addr := 0, rkey := 7 },
   { wr_id := 11, next := some 2, sge := ⟨8, 8, 5⟩, opcode := Opcode.read,
     remote_addr := 8, rkey := 7 },
   { wr_id := 12, next := none, sge := ⟨16, 8, 5⟩, opcode := Opcode.read,
     signaled := true, remote_addr := 16, rkey := 7 }]

/-- Concrete three-WR batch masked-FAA result used by the C8 witness. -/
def demoBatchMfaaWRs : List SendWR :=
  [{ wr_id := 10, next := some 1, sge := ⟨0, 8, 5⟩, opcode := Opcode.maskedFaa,
     remote_addr := 0, rkey := 7, add_val := 1, field_boundary := 2 },
   { wr_id := 11, next := some 2, sge := ⟨8, 8, 5⟩, opcode := Opcode.maskedFaa,
     remote_addr := 8, rkey := 7, add_val := 1, field_boundary := 2 },
   { wr_id := 12, next := none, sge := ⟨16, 8, 5⟩, opcode := Opcode.maskedFaa,
     signaled := true, remote_addr := 16, rkey := 7, add_val := 1, field_boundary := 2 }]

/-- Witness for `C8_batch_wr_chain` at a concrete accepted batch of three
work requests over one MR. -/
theorem C8_batch_wr_chain_witness :
    demoBatchReadWRs.length = 3 ∧ demoBatchMfaaWRs.length = 3 := by
  have h := C8_batch_wr_chain 0 [⟨0, 1024, 5, 7⟩] [⟨0, 1024, 5, 7⟩]
    (fun i => 8 * i) (fun i => 8 * i) (fun _ => 8) (fun i => 8 * i) (fun _ => 1) (fun _ => 2)
    3 10 demoBatchReadWRs demoBatchMfaaWRs (by decide) (by decide) rfl rfl
  exact ⟨h.1, h.2.1⟩

theorem abort_reason (rank : Nat) (s : String) : (Emergency.abort rank s).reason = s := rfl

theorem batch_mfaa_sge_error_reason (rank : Nat) (lmrs : List MR) (fetch : Nat → Nat)
    (i : Nat) (d : FatalDiag) (h : batch_mfaa_sge rank lmrs fetch i = Except.error d) :
    d.reason ≠ "post masked atomic FA to remote non-aligned address" := by
  by_cases ha : fetch i % 8 ≠ 0
  · rw [batch_mfaa_sge, if_pos ha] at h
    cases h
    rw [abort_reason]
    decide
  · rw [batch_mfaa_sge, if_neg ha] at h
    cases hl : match_mr_lkey lmrs (fetch i) 8 with
    | none =>
      rw [hl] at h
      cases h
      rw [abort_reason]
      decide
    | some lk =>
      rw [hl] at h
      cases h

theorem batch_mfaa_wr_error_reason_aligned (rank : Nat) (rmrs : List MR)
    (dst add boundary : Nat → Nat) (count wr_id_start : Nat) (sges : List SGE)
    (i : Nat) (d : FatalDiag) (halign : dst i % 8 = 0)
    (h : batch_mfaa_wr rank rmrs dst add boundary count wr_id_start sges i = Except.error d) :
    d.reason ≠ "post masked atomic FA to remote non-aligned address" := by
  rw [batch_mfaa_wr, if_neg (fun hc => hc halign)] at h
  cases hr : match_remote_mr_rkey rmrs (dst i) 8 with
  | none =>
    rw [hr] at h
    cases h
    rw [abort_reason]
    decide
  | some rk =>
    rw [hr] at h
    cases h

/-- C7: every atomic post operation — `post_atomic_cas`, `post_atomic_faa`,
`post_masked_atomic_cas`, `post_field_atomic_faa`, `post_masked_atomic_faa`
on the RC connection, their counterparts on the XRC connection, and the
batch masked FAA — is fatal before any work request is posted when the
remote target `dst` is not 8-byte aligned; and under the precondition that
`dst` is 8-byte aligned the misalignment abort branch is unreachable: any
remaining fatal outcome carries a different reason. -/
theorem C7_atomic_alignment (rank : Nat) (lmrs rmrs : List MR) (srq : Nat → Nat)
    (cid dst cp cv cm sw swm fp add hb lb bnd wid : Nat) (sig : Bool) :
    (dst % 8 ≠ 0 →
        rc_post_atomic_cas rank lmrs rmrs dst cp cv sw sig wid =
          Except.error (Emergency.abort rank "post atomic CAS to non-aligned address")
      ∧ rc_post_atomic_faa rank lmrs rmrs dst fp add sig wid =
          Except.error (Emergency.abort rank "post atomic FA to non-aligned address")
      ∧ rc_post_masked_atomic_cas rank lmrs rmrs dst cp cv cm sw swm sig wid =
          Except.error (Emergency.abort rank "post masked atomic FA to non-aligned address")
      ∧ rc_post_field_atomic_faa rank lmrs rmrs dst fp add hb lb sig wid =
          Except.error (Emergency.abort rank "post masked atomic FA to non-aligned address")
      ∧ rc_post_masked_atomic_faa rank lmrs rmrs dst fp add bnd sig wid =
          Except.error (Emergency.abort rank "post masked atomic FA to non-aligned address")
      ∧ xrc_post_atomic_cas rank lmrs rmrs srq cid dst cp cv sw sig wid =
          Except.error (Emergency.abort rank "post atomic CAS to non-aligned address")
      ∧ xrc_post_atomic_fa rank lmrs rmrs srq cid dst fp add sig wid =
          Except.error (Emergency.abort rank "post atomic FA to non-aligned address")
      ∧ xrc_post_masked_atomic_cas rank lmrs rmrs srq cid dst cp cv cm sw swm sig wid =
          Except.error (Emergency.abort rank "post masked atomic FA to non-aligned address")
      ∧ xrc_post_masked_atomic_fa rank lmrs rmrs srq cid dst fp add hb lb sig wid =
          Except.error (Emergency.abort rank "post masked atomic FA to non-aligned address"))
  ∧ (dst % 8 = 0 → ∀ d : FatalDiag,
        (rc_post_atomic_cas rank lmrs rmrs dst cp cv sw sig wid = Except.error d →
          d.reason ≠ "post atomic CAS to non-aligned address")
      ∧ (rc_post_atomic_faa rank lmrs rmrs dst fp add sig wid = Except.error d →
          d.reason ≠ "post atomic FA to non-aligned address")
      ∧ (rc_post_masked_atomic_cas rank lmrs rmrs dst cp cv cm sw swm sig wid = Except.error d →
          d.reason ≠ "post masked atomic FA to non-aligned address")
      ∧ (rc_post_field_atomic_faa rank lmrs rmrs dst fp add hb lb sig wid = Except.error d →
          d.reason ≠ "post masked atomic FA to non-aligned address")
      ∧ (rc_post_masked_atomic_faa rank lmrs rmrs dst fp add bnd sig wid = Except.error d →
          d.reason ≠ "post masked atomic FA to non-aligned address")
      ∧ (xrc_post_atomic_cas rank lmrs rmrs srq cid dst cp cv sw sig wid = Except.error d →
          d.reason ≠ "post atomic CAS to non-aligned address")
      ∧ (xrc_post_atomic_fa rank lmrs rmrs srq cid dst fp add sig wid = Except.error d →
          d.reason ≠ "post atomic FA to non-aligned address")
      ∧ (xrc_post_masked_atomic_cas rank lmrs rmrs srq cid dst cp cv cm sw swm sig wid =
            Except.error d →
          d.reason ≠ "post masked atomic FA to non-aligned address")
      ∧ (xrc_post_masked_atomic_fa rank lmrs rmrs srq cid dst fp add hb lb sig wid =
            Except.error d →
          d.reason ≠ "post masked atomic FA to non-aligned address"))
  ∧ (∀ (dstA fetchA addA bndA : Nat → Nat) (count start : Nat),
        ((∃ i, i < count ∧ dstA i % 8 ≠ 0) →
          ∃ d, rc_post_batch_masked_atomic_faa rank lmrs rmrs dstA fetchA addA bndA count start =
            Except.error d)
      ∧ ((∀ i, i < count → dstA i % 8 = 0) → ∀ d,
          rc_post_batch_masked_atomic_faa rank lmrs rmrs dstA fetchA addA bndA count start =
            Except.error d →
          d.reason ≠ "post masked atomic FA to remote non-aligned address")) := by
  refine ⟨?_, ?_, ?_⟩
  · intro h
    exact ⟨by rw [rc_post_atomic_cas, if_pos h],
      by rw [rc_post_atomic_faa, if_pos h],
      by rw [rc_post_masked_atomic_cas, if_pos h],
      by rw [rc_post_field_atomic_faa, if_pos h],
      by rw [rc_post_masked_atomic_faa, if_pos h],
      by rw [xrc_post_atomic_cas, if_pos h],
      by rw [xrc_post_atomic_fa, if_pos h],
      by rw [xrc_post_masked_atomic_cas, if_pos h],
      by rw [xrc_post_masked_atomic_fa, if_pos h]⟩
  · intro h0 d
    have hni : ¬dst % 8 ≠ 0 := fun hc => hc h0
    refine ⟨?_, ?_, ?_, ?_, ?_, ?_, ?_, ?_, ?_⟩
    · intro hE
      rw [rc_post_atomic_cas, if_neg hni] at hE
      cases hl : match_mr_lkey lmrs cp 8 with
      | none => rw [hl] at hE; cases hE; rw [abort_reason]; decide
      | some lk =>
        rw [hl] at hE
        cases hr : match_remote_mr_rkey rmrs dst 8 with
        | none => rw [hr] at hE; cases hE; rw [abort_reason]; decide
        | some rk => rw [hr] at hE; cases hE
    · intro hE
      rw [rc_post_atomic_faa, if_neg hni] at hE
      cases hl : match_mr_lkey lmrs fp 8 with
      | none => rw [hl] at hE; cases hE; rw [abort_reason]; decide
      | some lk =>
        rw [hl] at hE
        cases hr : match_remote_mr_rkey rmrs dst 8 with
        | none => rw [hr] at hE; cases hE; rw [abort_reason]; decide
        | some rk => rw [hr] at hE; cases hE
    · intro hE
      rw [rc_post_masked_atomic_cas, if_neg hni] at hE
      cases hl : match_mr_lkey lmrs cp 8 with
      | none => rw [hl] at hE; cases hE; rw [abort_reason]; decide
      | some lk =>
        rw [hl] at hE
        cases hr : match_remote_mr_rkey rmrs dst 8 with
        | none => rw [hr] at hE; cases hE; rw [abort_reason]; decide
        | some rk => rw [hr] at hE; cases hE
    · intro hE
      rw [rc_post_field_atomic_faa, if_neg hni] at hE
      cases hl : match_mr_lkey lmrs fp 8 with
      | none => rw [hl] at hE; cases hE; rw [abort_reason]; decide
      | some lk =>
        rw [hl] at hE
        cases hr : match_remote_mr_rkey rmrs dst 8 with
        | none => rw [hr] at hE; cases hE; rw [abort_reason]; decide
        | some rk => rw [hr] at hE; cases hE
    · intro hE
      rw [rc_post_masked_atomic_faa, if_neg hni] at hE
      cases hl : match_mr_lkey lmrs fp 8 with
      | none => rw [hl] at hE; cases hE; rw [abort_reason]; decide
      | some lk =>
        rw [hl] at hE
        cases hr : match_remote_mr_rkey rmrs dst 8 with
        | none => rw [hr] at hE; cases hE; rw [abort_reason]; decide
        | some rk => rw [hr] at hE; cases hE
    · intro hE
      rw [xrc_post_atomic_cas, if_neg hni] at hE
      cases hl : match_mr_lkey lmrs cp 8 with
      | none => rw [hl] at hE; cases hE; rw [abort_reason]; decide
      | some lk =>
        rw [hl] at hE
        cases hr : match_remote_mr_rkey rmrs dst 8 with
        | none => rw [hr] at hE; cases hE; rw [abort_reason]; decide
        | some rk => rw [hr] at hE; cases hE
    · intro hE
      rw [xrc_post_atomic_fa, if_neg hni] at hE
      cases hl : match_mr_lkey lmrs fp 8 with
      | none => rw [hl] at hE; cases hE; rw [abort_reason]; decide
      | some lk =>
        rw [hl] at hE
        cases hr : match_remote_mr_rkey rmrs dst 8 with
        | none => rw [hr] at hE; cases hE; rw [abort_reason]; decide
        | some rk => rw [hr] at hE; cases hE
    · intro hE
      rw [xrc_post_masked_atomic_cas, if_neg hni] at hE
      cases hl : match_mr_lkey lmrs cp 8 with
      | none => rw [hl] at hE; cases hE; rw [abort_reason]; decide
      | some lk =>
        rw [hl] at hE
        cases hr : match_remote_mr_rkey rmrs dst 8 with
        | none => rw [hr] at hE; cases hE; rw [abort_reason]; decide
        | some rk => rw [hr] at hE; cases hE
    · intro hE
      rw [xrc_post_masked_atomic_fa, if_neg hni] at hE
      cases hl : match_mr_lkey lmrs fp 8 with
      | none => rw [hl] at hE; cases hE; rw [abort_reason]; decide
      | some lk =>
        rw [hl] at hE
        cases hr : match_remote_mr_rkey rmrs dst 8 with
        | none => rw [hr] at hE; cases hE; rw [abort_reason]; decide
        | some rk => rw [hr] at hE; cases hE
  · intro dstA fetchA addA bndA count start
    constructor
    · rintro ⟨i, hic, hmis⟩
      rw [rc_post_batch_masked_atomic_faa]
      cases hsge : exTraverse (batch_mfaa_sge rank lmrs fetchA) (List.range count) with
      | error d => exact ⟨d, rfl⟩
      | ok sges =>
        cases hwr : exTraverse (batch_mfaa_wr rank rmrs dstA addA bndA count start sges)
            (List.range count) with
        | error d => exact ⟨d, hwr⟩
        | ok l =>
          exfalso
          have hx : i < (List.range count).length := by
            rw [List.length_range]; exact hic
          have hll : i < l.length := by
            rw [exTraverse_ok_length _ _ l hwr, List.length_range]; exact hic
          have hget := exTraverse_ok_get _ _ l hwr i hx hll
          rw [List.get_range] at hget
          rw [batch_mfaa_wr, if_pos hmis] at hget
          cases hget
    · intro halign d hE
      rw [rc_post_batch_masked_atomic_faa] at hE
      cases hsge : exTraverse (batch_mfaa_sge rank lmrs fetchA) (List.range count) with
      | error e =>
        rw [hsge] at hE
        cases hE
        obtain ⟨j, hjmem, hje⟩ := exTraverse_error_src _ _ _ hsge
        exact batch_mfaa_sge_error_reason rank lmrs fetchA j d hje
      | ok sges =>
        rw [hsge] at hE
        obtain ⟨j, hjmem, hje⟩ := exTraverse_error_src _ _ _ hE
        rw [List.mem_range] at hjmem
        exact batch_mfaa_wr_error_reason_aligned rank rmrs dstA addA bndA count start sges j d
          (halign j hjmem) hje

/-- Witness for `C7_atomic_alignment`: a misaligned CAS target (12) aborts
with the misalignment diagnostic, and with an aligned target (16) the only
fatal outcome of the same call is an MR-match fault, not the misalignment
one. -/
theorem C7_atomic_alignment_witness :
    rc_post_atomic_cas 0 [] [] 12 0 0 0 false 0 =
      Except.error (Emergency.abort 0 "post atomic CAS to non-aligned address")
  ∧ (Emergency.abort 0 "cannot match local mr").reason ≠
      "post atomic CAS to non-aligned address" := by
  have hmis := C7_atomic_alignment 0 [] [] (fun _ => 0) 0 12 0 0 0 0 0 0 0 0 0 0 0 false
  have hal := C7_atomic_alignment 0 [] [] (fun _ => 0) 0 16 0 0 0 0 0 0 0 0 0 0 0 false
  exact ⟨(hmis.1 (by decide)).1,
    (hal.2.1 (by decide) (Emergency.abort 0 "cannot match local mr")).1 rfl⟩

/-- C9: every one-sided work request (READ, WRITE, or any atomic) accepted
by the XRC connection with slot id `cid` carries
`xrc_remote_srq_num = peer.xrc_srq_nums[cid]` (the remote SRQ number of the
counterpart XRC slot, modelled by `srq cid`), and every two-sided
`post_send` with parameter `remote_id` carries
`xrc_remote_srq_num = peer.xrc_srq_nums[remote_id]`, addressing the SRQ of the
chosen remote thread. -/
theorem C9_xrc_wr_srq_number (rank : Nat) (lmrs rmrs : List MR) (srq : Nat → Nat)
    (cid dst src size cp cv cm sw swm fp add hb lb remote_id wid : Nat) (sig : Bool) :
    (∀ w, xrc_post_read rank lmrs rmrs srq cid dst src size sig wid = Except.ok w →
      w.xrc_remote_srq_num = srq cid)
  ∧ (∀ w, xrc_post_write rank lmrs rmrs srq cid dst src size sig wid = Except.ok w →
      w.xrc_remote_srq_num = srq cid)
  ∧ (∀ w, xrc_post_atomic_cas rank lmrs rmrs srq cid dst cp cv sw sig wid = Except.ok w →
      w.xrc_remote_srq_num = srq cid)
  ∧ (∀ w, xrc_post_atomic_fa rank lmrs rmrs srq cid dst fp add sig wid = Except.ok w →
      w.xrc_remote_srq_num = srq cid)
  ∧ (∀ w, xrc_post_masked_atomic_cas rank lmrs rmrs srq cid dst cp cv cm sw swm sig wid =
        Except.ok w →
      w.xrc_remote_srq_num = srq cid)
  ∧ (∀ w, xrc_post_masked_atomic_fa rank lmrs rmrs srq cid dst fp add hb lb sig wid =
        Except.ok w →
      w.xrc_remote_srq_num = srq cid)
  ∧ (∀ w, xrc_post_send rank lmrs srq src size remote_id sig wid = Except.ok w →
      w.xrc_remote_srq_num = srq remote_id) := by
  refine ⟨?_, ?_, ?_, ?_, ?_, ?_, ?_⟩
  · intro w hE
    rw [xrc_post_read] at hE
    cases hl : match_mr_lkey lmrs dst size with
    | none => rw [hl] at hE; cases hE
    | some lk =>
      rw [hl] at hE
      cases hr : match_remote_mr_rkey rmrs src size with
      | none => rw [hr] at hE; cases hE
      | some rk => rw [hr] at hE; cases hE; rfl
  · intro w hE
    rw [xrc_post_write] at hE
    cases hl : match_mr_lkey lmrs src size with
    | none => rw [hl] at hE; cases hE
    | some lk =>
      rw [hl] at hE
      cases hr : match_remote_mr_rkey rmrs dst size with
      | none => rw [hr] at hE; cases hE
      | some rk => rw [hr] at hE; cases hE; rfl
  · intro w hE
    by_cases ha : dst % 8 ≠ 0
    · rw [xrc_post_atomic_cas, if_pos ha] at hE; cases hE
    · rw [xrc_post_atomic_cas, if_neg ha] at hE
      cases hl : match_mr_lkey lmrs cp 8 with
      | none => rw [hl] at hE; cases hE
      | some lk =>
        rw [hl] at hE
        cases hr : match_remote_mr_rkey rmrs dst 8 with
        | none => rw [hr] at hE; cases hE
        | some rk => rw [hr] at hE; cases hE; rfl
  · intro w hE
    by_cases ha : dst % 8 ≠ 0
    · rw [xrc_post_atomic_fa, if_pos ha] at hE; cases hE
    · rw [xrc_post_atomic_fa, if_neg ha] at hE
      cases hl : match_mr_lkey lmrs fp 8 with
      | none => rw [hl] at hE; cases hE
      | some lk =>
        rw [hl] at hE
        cases hr : match_remote_mr_rkey rmrs dst 8 with
        | none => rw [hr] at hE; cases hE
        | some rk => rw [hr] at hE; cases hE; rfl
  · intro w hE
    by_cases ha : dst % 8 ≠ 0
    · rw [xrc_post_masked_atomic_cas, if_pos ha] at hE; cases hE
    · rw [xrc_post_masked_atomic_cas, if_neg ha] at hE
      cases hl : match_mr_lkey lmrs cp 8 with
      | none => rw [hl] at hE; cases hE
      | some lk =>
        rw [hl] at hE
        cases hr : match_remote_mr_rkey rmrs dst 8 with
        | none => rw [hr] at hE; cases hE
        | some rk => rw [hr] at hE; cases hE; rfl
  · intro w hE
    by_cases ha : dst % 8 ≠ 0
    · rw [xrc_post_masked_atomic_fa, if_pos ha] at hE; cases hE
    · rw [xrc_post_masked_atomic_fa, if_neg ha] at hE
      cases hl : match_mr_lkey lmrs fp 8 with
      | none => rw [hl] at hE; cases hE
      | some lk =>
        rw [hl] at hE
        cases hr : match_remote_mr_rkey rmrs dst 8 with
        | none => rw [hr] at hE; cases hE
        | some rk => rw [hr] at hE; cases hE; rfl
  · intro w hE
    rw [xrc_post_send] at hE
    cases hl : match_mr_lkey lmrs src size with
    | none => rw [hl] at hE; cases hE
    | some lk => rw [hl] at hE; cases hE; rfl

/-- Witness for `C9_xrc_wr_srq_number`: an accepted XRC READ on slot 2 with
`peer.xrc_srq_nums = (fun i => 100 + i)` carries SRQ number 102, and an
accepted SEND with `remote_id = 1` carries SRQ number 101. -/
theorem C9_xrc_wr_srq_number_witness :
    ({ wr_id := 4, sge := ⟨0, 8, 5⟩, opcode := Opcode.read, signaled := true,
       remote_addr := 8, rkey := 7, xrc_remote_srq_num := 102 } : SendWR).xrc_remote_srq_num =
      (fun i => 100 + i) 2
  ∧ ({ wr_id := 4, sge := ⟨8, 8, 5⟩, opcode := Opcode.send, signaled := true,
       xrc_remote_srq_num := 101 } : SendWR).xrc_remote_srq_num = (fun i => 100 + i) 1 := by
  have h := C9_xrc_wr_srq_number 0 [⟨0, 1024, 5, 7⟩] [⟨0, 1024, 5, 7⟩] (fun i => 100 + i)
    2 0 8 8 0 0 0 0 0 0 0 0 0 1 4 true
  exact ⟨(h.1 _ rfl), (h.2.2.2.2.2.2 _ rfl)⟩

/-- The memory state visible to one `rptr` CAS: the remote address and its
8-byte word, and the local staging buffer address and its 8-byte word. -/
structure CasWorld where
  remotePtr : Nat
  localPtr : Nat
  remoteVal : Nat
  localVal : Nat
deriving DecidableEq, Repr

/-- Modelled from the spec: the 64-bit CAS execution of the NIC collaborator
(§6.3, §8): the remote word is compared with `wr.compare_add`; on equality
it is replaced by `wr.swap`; the fetched previous value is returned to the
SGE buffer in either case.  Result: `(new remote word, fetched value)`. -/
def nic_exec_cas (remoteVal : Nat) (wr : SendWR) : Nat × Nat :=
  (if remoteVal = wr.compare_add then wr.swap else remoteVal, remoteVal)

/-- `rptr::compare_exchange(compare, exchange, sync = true)` (rptr.h lines
136-148) over `ReliableConnection::post_atomic_cas`: the local buffer is
first overwritten with `compare` (so the posted WR carries `compare` as the
expected value), the CAS is posted and the completion polled (the NIC
writes the fetched previous value into the local buffer), the local copy is
marked valid, and the method returns whether the buffer now equals
`compare`. -/
def rptr_compare_exchange (rank : Nat) (lmrs rmrs : List MR) (w : CasWorld)
    (compare exchange : Nat) : Except FatalDiag (Bool × CasWorld) :=
  match rc_post_atomic_cas rank lmrs rmrs w.remotePtr w.localPtr compare exchange true 0 with
  | Except.error d => Except.error d
  | Except.ok wr =>
    Except.ok ((nic_exec_cas w.remoteVal wr).2 == compare,
      { w with remoteVal := (nic_exec_cas w.remoteVal wr).1,
               localVal := (nic_exec_cas w.remoteVal wr).2 })

theorem rc_post_atomic_cas_ok_fields (rank : Nat) (lmrs rmrs : List MR)
    (dst cp cv sw : Nat) (sig : Bool) (wid : Nat) (w : SendWR)
    (h : rc_post_atomic_cas rank lmrs rmrs dst cp cv sw sig wid = Except.ok w) :
    w.compare_add = cv ∧ w.swap = sw := by
  by_cases ha : dst % 8 ≠ 0
  · rw [rc_post_atomic_cas, if_pos ha] at h
    cases h
  · rw [rc_post_atomic_cas, if_neg ha] at h
    cases hl : match_mr_lkey lmrs cp 8 with
    | none => rw [hl] at h; cases h
    | some lk =>
      rw [hl] at h
      cases hr : match_remote_mr_rkey rmrs dst 8 with
      | none => rw [hr] at h; cases h
      | some rk => rw [hr] at h; cases h; exact ⟨rfl, rfl⟩

/-- C5 counterexample: the claim asserts the remote word equals `swap` after
the op IF AND ONLY IF the pre-value equaled the expected value.  Take a
pre-value `P = 5`, expected value `3`, swap value `5`: the CAS fails
(`5 ≠ 3`, `compare_exchange` returns false) and leaves the remote word
unchanged at `5` — which equals the swap value even though `P` never
equaled the expected value, refuting the claimed equivalence. -/
theorem C5_cas_swap_iff_counterexample :
    rptr_compare_exchange 0 [⟨0, 1024, 3, 4⟩] [⟨0, 1024, 3, 4⟩] ⟨64, 8, 5, 0⟩ 3 5 =
      Except.ok (false, ⟨64, 8, 5, 5⟩)
  ∧ (⟨64, 8, 5, 5⟩ : CasWorld).remoteVal = 5
  ∧ (5 : Nat) ≠ 3 :=
  ⟨rfl, rfl, by decide⟩

/-- C5 (amended): for every accepted `post_atomic_cas(dst, compare_buf, swap)`
on a remote 8-byte word with pre-value `P`, the posted work request carries
`*compare_buf` as the expected value and `swap` as the swap value; after the
completion `*compare_buf` holds `P`; if `P` equaled the expected value the
remote word equals `swap` afterwards, and otherwise the remote word is left
unchanged (so it may equal `swap` only if it already did); and
`rptr::compare_exchange(expected, desired)` returns true if and only if
`P = expected`. -/
theorem C5_cas_semantics (rank : Nat) (lmrs rmrs : List MR) (w : CasWorld)
    (compare exchange : Nat) (wr : SendWR)
    (hpost : rc_post_atomic_cas rank lmrs rmrs w.remotePtr w.localPtr compare exchange true 0 =
      Except.ok wr) :
    wr.compare_add = compare ∧ wr.swap = exchange
  ∧ rptr_compare_exchange rank lmrs rmrs w compare exchange =
      Except.ok (decide (w.remoteVal = compare),
        { w with remoteVal := if w.remoteVal = compare then exchange else w.remoteVal,
                 localVal := w.remoteVal })
  ∧ ((decide (w.remoteVal = compare)) = true ↔ w.remoteVal = compare) := by
  obtain ⟨hca, hsw⟩ := rc_post_atomic_cas_ok_fields rank lmrs rmrs
    w.remotePtr w.localPtr compare exchange true 0 wr hpost
  refine ⟨hca, hsw, ?_, by simp⟩
  rw [rptr_compare_exchange, hpost]
  simp only [nic_exec_cas, hca, hsw]
  by_cases h : w.remoteVal = compare <;> simp [h]

/-- Witness for `C5_cas_semantics`: an accepted CAS with expected value 7
and swap value 9 posts a WR carrying exactly those two values. -/
theorem C5_cas_semantics_witness :
    ({ wr_id := 0, sge := ⟨8, 8, 3⟩, opcode := Opcode.cas, signaled := true,
       remote_addr := 64, rkey := 4, compare_add := 7, swap := 9 } : SendWR).compare_add = 7
  ∧ ({ wr_id := 0, sge := ⟨8, 8, 3⟩, opcode := Opcode.cas, signaled := true,
       remote_addr := 64, rkey := 4, compare_add := 7, swap := 9 } : SendWR).swap = 9 := by
  have h := C5_cas_semantics 0 [⟨0, 1024, 3, 4⟩] [⟨0, 1024, 3, 4⟩] ⟨64, 8, 7, 0⟩ 7 9
    { wr_id := 0, sge := ⟨8, 8, 3⟩, opcode := Opcode.cas, signaled := true,
      remote_addr := 64, rkey := 4, compare_add := 7, swap := 9 } rfl
  exact ⟨h.1, h.2.1⟩

/-- Data-plane events an `rptr` operation can emit on its connection. -/
inductive RWEvent where
  | readPost
  | writePost
deriving DecidableEq, Repr

/-- State of one `rptr<T>` together with the words it can touch: the `valid`
flag, the contents of the local staging buffer, and the contents of the
remote object. -/
structure RPtrState where
  valid : Bool
  localBuf : Nat
  remote : Nat
deriving DecidableEq, Repr

/-- `rptr::commit(offset, len, sync)` (rptr.h lines 116-123): the body —
`post_write` plus the optional poll — is guarded by `if (valid)`; an
invalid pointer posts nothing.  The flag itself is not touched here. -/
def rptr_commit_part (st : RPtrState) : RPtrState × List RWEvent :=
  if st.valid then ({ st with remote := st.localBuf }, [RWEvent.writePost])
  else (st, [])

/-- Whole-object `rptr::commit(sync)` (rptr.h lines 102-106): calls
`commit(0, sizeof(T), sync)` and then `validate()`, which sets
`valid = true` unconditionally. -/
def rptr_commit (st : RPtrState) : RPtrState × List RWEvent :=
  let r := rptr_commit_part st
  ({ r.1 with valid := true }, r.2)

/-- `rptr::operator*` (rptr.h lines 53-61): when the flag is invalid or `T`
is volatile-qualified, issue a signaled READ of `sizeof(T)` bytes into the
local buffer, poll one completion, and set `valid = true`; then return the
local buffer.  Result: `(returned value, new state, events)`. -/
def rptr_deref (isVolatile : Bool) (st : RPtrState) : Nat × RPtrState × List RWEvent :=
  if !st.valid || isVolatile then
    (st.remote, { st with localBuf := st.remote, valid := true }, [RWEvent.readPost])
  else
    (st.localBuf, st, [])

/-- C10 counterexample: the claim quantifies over every `rptr<T>`, but for a
volatile-qualified `T` the dereference that follows a whole-object `commit`
on an invalid pointer still issues a READ (the `std::is_volatile_v<T>`
disjunct forces it), and returns the freshly fetched remote word (42), not
the staging-buffer content (7). -/
theorem C10_volatile_deref_counterexample :
    rptr_commit ⟨false, 7, 42⟩ = (⟨true, 7, 42⟩, [])
  ∧ rptr_deref true ⟨true, 7, 42⟩ = (42, ⟨true, 42, 42⟩, [RWEvent.readPost])
  ∧ (42 : Nat) ≠ 7 := by
  refine ⟨rfl, rfl, by decide⟩

/-- C10 (amended, non-volatile `T`): for every `rptr<T>` whose valid flag is
false, a whole-object `commit()` posts no WRITE to the connection (the
sub-range commit body is guarded by the valid flag) yet unconditionally sets
the valid flag to true, so — provided `T` is not volatile-qualified — an
immediately following dereference returns the contents of the local staging
buffer without issuing any READ to the remote side. -/
theorem C10_commit_invalid_no_write (st : RPtrState) (hinv : st.valid = false) :
    rptr_commit st = ({ st with valid := true }, [])
  ∧ rptr_deref false (rptr_commit st).1 = (st.localBuf, { st with valid := true }, []) := by
  have hc : rptr_commit st = ({ st with valid := true }, []) := by
    rw [rptr_commit, rptr_commit_part, if_neg (by rw [hinv]; exact Bool.false_ne_true)]
  refine ⟨hc, ?_⟩
  rw [hc]
  rw [rptr_deref]
  simp

/-- Witness for `C10_commit_invalid_no_write` at an invalid pointer whose
staging buffer holds 7 while the remote object holds 42. -/
theorem C10_commit_invalid_no_write_witness :
    rptr_commit ⟨false, 7, 42⟩ = (⟨true, 7, 42⟩, [])
  ∧ rptr_deref false (rptr_commit ⟨false, 7, 42⟩).1 = (7, ⟨true, 7, 42⟩, []) :=
  C10_commit_invalid_no_write ⟨false, 7, 42⟩ rfl

/-- How connection slot `i` obtains its completion queues in
`Peer::establish(int num_rc, int *share_cq_with)`: fresh CQs of its own, or
the send/recv CQs of an already-constructed lower-indexed connection. -/
inductive CQChoice where
  | own
  | shared (j : Nat)
deriving DecidableEq, Repr

/-- The connection-construction loop of
`Peer::establish(int num_rc, int *share_cq_with)` (peer.cpp): for slot `i`,
`share_cq_with[i] < 0 || share_cq_with[i] == i` builds an independent
connection, `share_cq_with[i] > i` is `Emergency::abort("invalid share_cq_with")`,
and otherwise (`0 ≤ share_cq_with[i] < i`) the new connection reuses the
send and recv CQs of connection `share_cq_with[i]`. -/
def share_cq_plan (rank : Nat) : List Int → Nat → Except FatalDiag (List CQChoice)
  | [], _ => Except.ok []
  | v :: rest, i =>
    if v < 0 ∨ v = (i : Int) then
      match share_cq_plan rank rest (i + 1) with
      | Except.error d => Except.error d
      | Except.ok cs => Except.ok (CQChoice.own :: cs)
    else if v > (i : Int) then
      Except.error (Emergency.abort rank "invalid share_cq_with")
    else
      match share_cq_plan rank rest (i + 1) with
      | Except.error d => Except.error d
      | Except.ok cs => Except.ok (CQChoice.shared v.toNat :: cs)

/-- The per-slot CQ choice the loop makes when it does not abort. -/
def shareChoices : Nat → List Int → List CQChoice
  | _, [] => []
  | i, v :: rest =>
    (if v < 0 ∨ v = (i : Int) then CQChoice.own else CQChoice.shared v.toNat) ::
      shareChoices (i + 1) rest

theorem share_cq_plan_ok_of_bounded (rank : Nat) :
    ∀ (policy : List Int) (s : Nat),
      (∀ i (h : i < policy.length), policy.get ⟨i, h⟩ ≤ ((s + i : Nat) : Int)) →
      share_cq_plan rank policy s = Except.ok (shareChoices s policy) := by
  intro policy
  induction policy with
  | nil => intro s _; rfl
  | cons v rest ih =>
    intro s hbound
    have hv : v ≤ (s : Int) := by
      have h0 := hbound 0 (by simp)
      simpa using h0
    have hrest : ∀ i (h : i < rest.length), rest.get ⟨i, h⟩ ≤ ((s + 1 + i : Nat) : Int) := by
      intro i h
      have hi := hbound (i + 1) (by simpa using Nat.succ_lt_succ h)
      have harr : s + (i + 1) = s + 1 + i := by omega
      rw [harr] at hi
      simpa using hi
    have hrec := ih (s + 1) hrest
    by_cases hc : v < 0 ∨ v = (s : Int)
    · rw [share_cq_plan, if_pos hc, hrec, shareChoices, if_pos hc]
    · have hgt : ¬v > (s : Int) := by
        rcases lt_or_eq_of_le hv with h | h
        · exact not_lt_of_lt h
        · exact absurd h (fun he => hc (Or.inr he))
      rw [share_cq_plan, if_neg hc, if_neg hgt, hrec, shareChoices, if_neg hc]

theorem share_cq_plan_bounded_of_ok (rank : Nat) :
    ∀ (policy : List Int) (s : Nat) (cs : List CQChoice),
      share_cq_plan rank policy s = Except.ok cs →
      ∀ i (h : i < policy.length), policy.get ⟨i, h⟩ ≤ ((s + i : Nat) : Int) := by
  intro policy
  induction policy with
  | nil =>
    intro s cs _ i h
    exact absurd h (Nat.not_lt_zero i)
  | cons v rest ih =>
    intro s cs hok i h
    rw [share_cq_plan] at hok
    by_cases hc : v < 0 ∨ v = (s : Int)
    · rw [if_pos hc] at hok
      cases hrec : share_cq_plan rank rest (s + 1) with
      | error d => rw [hrec] at hok; cases hok
      | ok cs2 =>
        rw [hrec] at hok
        cases i with
        | zero =>
          have hget : (v :: rest).get ⟨0, h⟩ = v := rfl
          rw [hget]
          rcases hc with h0 | h0 <;> omega
        | succ i =>
          have hi := ih (s + 1) cs2 hrec i (Nat.lt_of_succ_lt_succ h)
          have hget : (v :: rest).get ⟨i + 1, h⟩ = rest.get ⟨i, Nat.lt_of_succ_lt_succ h⟩ := rfl
          rw [hget]
          omega
    · rw [if_neg hc] at hok
      by_cases hgt : v > (s : Int)
      · rw [if_pos hgt] at hok
        cases hok
      · rw [if_neg hgt] at hok
        cases hrec : share_cq_plan rank rest (s + 1) with
        | error d => rw [hrec] at hok; cases hok
        | ok cs2 =>
          rw [hrec] at hok
          cases i with
          | zero =>
            have hget : (v :: rest).get ⟨0, h⟩ = v := rfl
            rw [hget]
            omega
          | succ i =>
            have hi := ih (s + 1) cs2 hrec i (Nat.lt_of_succ_lt_succ h)
            have hget : (v :: rest).get ⟨i + 1, h⟩ = rest.get ⟨i, Nat.lt_of_succ_lt_succ h⟩ := rfl
            rw [hget]
            omega

theorem share_cq_plan_error_reason (rank : Nat) :
    ∀ (policy : List Int) (s : Nat) (d : FatalDiag),
      share_cq_plan rank policy s = Except.error d →
      d = Emergency.abort rank "invalid share_cq_with" := by
  intro policy
  induction policy with
  | nil => intro s d h; cases h
  | cons v rest ih =>
    intro s d h
    rw [share_cq_plan] at h
    by_cases hc : v < 0 ∨ v = (s : Int)
    · rw [if_pos hc] at h
      cases hrec : share_cq_plan rank rest (s + 1) with
      | error e =>
        rw [hrec] at h
        cases h
        exact ih (s + 1) d hrec
      | ok cs => rw [hrec] at h; cases h
    · rw [if_neg hc] at h
      by_cases hgt : v > (s : Int)
      · rw [if_pos hgt] at h
        cases h
        rfl
      · rw [if_neg hgt] at h
        cases hrec : share_cq_plan rank rest (s + 1) with
        | error e =>
          rw [hrec] at h
          cases h
          exact ih (s + 1) d hrec
        | ok cs => rw [hrec] at h; cases h

/-- C6 counterexample: the claim says any value other than −1, `i`, or a
lesser existing index is fatal; but for slot 0 the value −2 (which is
neither −1 nor 0, and no index `j` with `0 ≤ j < 0` exists) is accepted by
the `share_cq_with[i] < 0` test and silently builds an independent
connection instead of aborting. -/
theorem C6_minus_two_counterexample :
    share_cq_plan 0 [(-2 : Int)] 0 = Except.ok [CQChoice.own]
  ∧ ((-2 : Int) ≠ -1 ∧ (-2 : Int) ≠ 0) :=
  ⟨rfl, by decide⟩

/-- C6 (amended): in the CQ-sharing establish variant, for each slot `i` of
`share_cq_with`: ANY negative value, or the value `i` itself, creates the
connection with its own independent send/recv CQs; a value `j` with
`0 ≤ j < i` makes connection `i` reuse the send and recv CQs of the
already-constructed connection `j`; and a value greater than `i` is fatal
(`Emergency::abort("invalid share_cq_with")`). -/
theorem C6_share_cq_policy (rank : Nat) (policy : List Int) :
    ((∀ i (h : i < policy.length), policy.get ⟨i, h⟩ ≤ (i : Int)) →
      share_cq_plan rank policy 0 = Except.ok (shareChoices 0 policy))
  ∧ (∀ cs, share_cq_plan rank policy 0 = Except.ok cs → cs = shareChoices 0 policy)
  ∧ ((∃ i, ∃ h : i < policy.length, policy.get ⟨i, h⟩ > (i : Int)) →
      share_cq_plan rank policy 0 =
        Except.error (Emergency.abort rank "invalid share_cq_with")) := by
  refine ⟨?_, ?_, ?_⟩
  · intro hbound
    apply share_cq_plan_ok_of_bounded
    intro i h
    have := hbound i h
    omega
  · intro cs hok
    have hbound := share_cq_plan_bounded_of_ok rank policy 0 cs hok
    have := share_cq_plan_ok_of_bounded rank policy 0 hbound
    rw [hok] at this
    cases this
    rfl
  · rintro ⟨i, h, hviol⟩
    cases hplan : share_cq_plan rank policy 0 with
    | error d =>
      rw [share_cq_plan_error_reason rank policy 0 d hplan]
    | ok cs =>
      exfalso
      have hbound := share_cq_plan_bounded_of_ok rank policy 0 cs hplan i h
      omega

/-- Witness for `C6_share_cq_policy` at the policy `[-1, 0, 1]`: slot 0
gets its own CQs, slots 1 and 2 reuse the CQs of slots 0 and 1. -/
theorem C6_share_cq_policy_witness :
    share_cq_plan 0 [(-1 : Int), 0, 1] 0 = Except.ok (shareChoices 0 [(-1 : Int), 0, 1])
  ∧ shareChoices 0 [(-1 : Int), 0, 1] = [CQChoice.own, CQChoice.shared 0, CQChoice.shared 1] :=
  ⟨(C6_share_cq_policy 0 [(-1 : Int), 0, 1]).1 (by decide), by decide⟩

/-- The completion-status check shared by every `poll_*_cq` shape
(rc.cpp lines 787-862, xrc.cpp lines 254-329): each reaped completion whose
status is not `IBV_WC_SUCCESS` (0) is fatal with
`Emergency::abort("wc failure: " + to_string(status))`. -/
def poll_cq_statuses (rank : Nat) : List Nat → Except FatalDiag Unit
  | [] => Except.ok ()
  | s :: rest =>
    if s ≠ 0 then Except.error (Emergency.abort rank ("wc failure: " ++ toString s))
    else poll_cq_statuses rank rest

/-- C4: every fatal fault path — a configuration fault (invalid connection
counts in `Cluster::establish`), an address fault (no covering MR; a
misaligned atomic target), and a transport fault (a non-success completion
status) — produces an `Emergency::abort` diagnostic that carries the
calling rank and a nonempty reason string and is logged as
`[node <rank>] <reason>`; each such path ends in `Except.error`, never in a
normal return value, modelling that `Emergency::abort` never returns
control to the caller. -/
theorem C4_fatal_paths_diagnostics (rank : Nat) :
    (∀ st : ClusterState, cluster_establish rank st 0 0 =
      Except.error (Emergency.abort rank "no connections to establush"))
  ∧ (∀ addr size : Nat, match_mr_lkeyE rank [] addr size =
      Except.error (Emergency.abort rank "cannot match local mr"))
  ∧ (∀ (lmrs rmrs : List MR) (k cp cv sw wid : Nat) (sig : Bool),
      rc_post_atomic_cas rank lmrs rmrs (8 * k + 1) cp cv sw sig wid =
        Except.error (Emergency.abort rank "post atomic CAS to non-aligned address"))
  ∧ (∀ (s : Nat) (rest : List Nat), poll_cq_statuses rank ((s + 1) :: rest) =
      Except.error (Emergency.abort rank ("wc failure: " ++ toString (s + 1))))
  ∧ (∀ r : Nat, ∀ msg : String, (Emergency.abort r msg).rank = r
      ∧ (Emergency.abort r msg).logLine = "[node " ++ toString r ++ "] " ++ msg)
  ∧ ((Emergency.abort rank "no connections to establush").reason ≠ ""
      ∧ (Emergency.abort rank "cannot match local mr").reason ≠ ""
      ∧ (Emergency.abort rank "post atomic CAS to non-aligned address").reason ≠ "")
  ∧ (∀ (st : ClusterState) (res : ClusterState × List CEvent),
      cluster_establish rank st 0 0 ≠ Except.ok res) := by
  have hinvalid : (0 : Int) < 0 ∨ (0 : Int) < 0 ∨ ((0 : Int) = 0 ∧ (0 : Int) = 0) := by decide
  refine ⟨?_, ?_, ?_, ?_, ?_, ?_, ?_⟩
  · intro st
    rw [cluster_establish, if_pos hinvalid]
  · intro addr size
    rfl
  · intro lmrs rmrs k cp cv sw wid sig
    rw [rc_post_atomic_cas, if_pos (by omega)]
  · intro s rest
    rw [poll_cq_statuses, if_pos (by omega)]
  · intro r msg
    exact ⟨rfl, rfl⟩
  · refine ⟨?_, ?_, ?_⟩ <;> (rw [abort_reason]; decide)
  · intro st res h
    rw [cluster_establish, if_pos hinvalid] at h
    cases h
